import Mathlib

/-!
Shallow embedding of the GPS tracking hook `useGeoTracker`
(src/app/hooks/useGeoTracker.tsx) of the Aerotone repository.

JavaScript numbers are modelled by `JSNum`: an exact rational together
with the three non-finite IEEE values (positive infinity, negative
infinity, NaN).  Rounding is idealised (rationals are exact), but the
propagation of non-finite values through arithmetic and comparisons
follows JavaScript semantics, which is what the finiteness guards in
the source are about.

Field dictionary (spec name = source state name):
  cumulativeDistanceMeters = distanceM (published) / distanceRef (ref)
  smoothedSpeed            = speedMs
  averageSpeed             = avgSpeedMs
  lastAcceptedFix          = prev (prevRef)
  activeElapsedSeconds     = movingTime (movingTimeRef)
  lastKnownFix             = lastFix
  sessionStartTimestamp    = startedAt (startedAtRef)

The third-party `haversine-distance` function is not part of this
repository; the model takes it as a parameter `hav`, constrained where
a claim needs its actual properties (it returns non-negative finite
numbers on real coordinates).
-/

namespace Aerotone

/-- JavaScript number: a finite rational, positive or negative infinity, or NaN. -/
inductive JSNum where
  | num (q : ℚ)
  | posInf
  | negInf
  | nan
deriving DecidableEq

namespace JSNum

/-- JavaScript strict less-than; false whenever an operand is NaN. -/
def lt : JSNum → JSNum → Bool
  | nan, _ => false
  | _, nan => false
  | num a, num b => a < b
  | num _, posInf => true
  | num _, negInf => false
  | posInf, _ => false
  | negInf, negInf => false
  | negInf, _ => true

/-- JavaScript less-or-equal; false whenever an operand is NaN. -/
def le : JSNum → JSNum → Bool
  | nan, _ => false
  | _, nan => false
  | num a, num b => a ≤ b
  | num _, posInf => true
  | num _, negInf => false
  | posInf, posInf => true
  | posInf, _ => false
  | negInf, _ => true

/-- JavaScript greater-than, defined as the flipped less-than. -/
def gt (a b : JSNum) : Bool := lt b a

/-- JavaScript greater-or-equal, defined as the flipped less-or-equal. -/
def ge (a b : JSNum) : Bool := le b a

/-- JavaScript unary negation. -/
def neg : JSNum → JSNum
  | num a => num (-a)
  | posInf => negInf
  | negInf => posInf
  | nan => nan

/-- JavaScript addition, with IEEE propagation of infinities and NaN. -/
def add : JSNum → JSNum → JSNum
  | nan, _ => nan
  | _, nan => nan
  | posInf, negInf => nan
  | negInf, posInf => nan
  | posInf, _ => posInf
  | _, posInf => posInf
  | negInf, _ => negInf
  | _, negInf => negInf
  | num a, num b => num (a + b)

/-- JavaScript subtraction. -/
def sub (a b : JSNum) : JSNum := add a (neg b)

/-- JavaScript multiplication; `0 * ∞` is NaN. -/
def mul : JSNum → JSNum → JSNum
  | nan, _ => nan
  | _, nan => nan
  | num a, num b => num (a * b)
  | posInf, posInf => posInf
  | posInf, negInf => negInf
  | negInf, posInf => negInf
  | negInf, negInf => posInf
  | posInf, num b => if b = 0 then nan else if 0 < b then posInf else negInf
  | num a, posInf => if a = 0 then nan else if 0 < a then posInf else negInf
  | negInf, num b => if b = 0 then nan else if 0 < b then negInf else posInf
  | num a, negInf => if a = 0 then nan else if 0 < a then negInf else posInf

/-- JavaScript division; division of a nonzero finite number by zero gives an
infinity, `0/0` and `∞/∞` give NaN, and a finite number divided by an
infinity gives zero.  (The model has no signed zero.) -/
def div : JSNum → JSNum → JSNum
  | nan, _ => nan
  | _, nan => nan
  | num a, num b =>
      if b = 0 then (if a = 0 then nan else if 0 < a then posInf else negInf)
      else num (a / b)
  | posInf, posInf => nan
  | posInf, negInf => nan
  | negInf, posInf => nan
  | negInf, negInf => nan
  | posInf, num b => if 0 ≤ b then posInf else negInf
  | negInf, num b => if 0 ≤ b then negInf else posInf
  | num _, posInf => num 0
  | num _, negInf => num 0

/-- JavaScript `Number.isFinite`. -/
def isFinite : JSNum → Bool
  | num _ => true
  | _ => false

end JSNum

/-- The coordinate pair handed to the haversine function
(`{ lat, lon }` object literals at line 132 of the source). -/
structure LatLon where
  lat : JSNum
  lon : JSNum
deriving DecidableEq

/-- The fields of `GeolocationCoordinates` consumed by the hook.  `speed` is
`number | null`; `accuracy` is kept optional because the source guards it
with `accuracy ?? Infinity`. -/
structure Coords where
  latitude : JSNum
  longitude : JSNum
  speed : Option JSNum
  accuracy : Option JSNum
deriving DecidableEq

/-- The fields of a `GeolocationPosition` consumed by the hook. -/
structure GeolocationPosition where
  coords : Coords
  timestamp : JSNum
deriving DecidableEq

/-- The source's `Fix` record stored in `prevRef`
(`type Fix = { t; lat; lon; acc }`). -/
structure Fix where
  t : JSNum
  lat : JSNum
  lon : JSNum
  acc : JSNum
deriving DecidableEq

/-- The hook's recognised options with their source defaults
(`minAccuracyM = 60`, `minIntervalMs = 500`, `smoothFactor = 0.25`). -/
structure GeoTrackerOptions where
  minAccuracyM : JSNum := JSNum.num 60
  minIntervalMs : JSNum := JSNum.num 500
  smoothFactor : JSNum := JSNum.num (1/4)
deriving DecidableEq

/-- The mutable session state of the hook: the published React state
(`isActive`, `error`, `distanceM`, `speedMs`, `avgSpeedMs`, `lastFix`)
together with the refs (`prevRef`, `startedAtRef`, `movingTimeRef`,
`lastTickRef`, `distanceRef`). -/
structure GeoState where
  isActive : Bool
  error : Option String
  distanceM : JSNum
  speedMs : Option JSNum
  avgSpeedMs : Option JSNum
  lastFix : Option GeolocationPosition
  prev : Option Fix
  startedAt : Option JSNum
  movingTime : JSNum
  lastTick : Option JSNum
  distanceRef : JSNum
deriving DecidableEq

attribute [ext] GeoState

/-- The state of a freshly constructed hook (the `useState` / `useRef`
initialisers). -/
def initState : GeoState :=
  { isActive := false
    error := none
    distanceM := JSNum.num 0
    speedMs := none
    avgSpeedMs := none
    lastFix := none
    prev := none
    startedAt := none
    movingTime := JSNum.num 0
    lastTick := none
    distanceRef := JSNum.num 0 }

/-- The `start` callback, plus the re-run of the tick effect it triggers:
when the session becomes active the effect sets `lastTickRef.current =
performance.now()` (line 72) before scheduling the first frame.  A `start`
while already active changes nothing (React skips the no-op state update). -/
def start (s : GeoState) (now : JSNum) : GeoState :=
  if s.isActive then s else { s with isActive := true, lastTick := some now }

/-- The `pause` callback: clears `isActive`; the tick effect's cleanup
cancels the animation frame but the refs keep their values. -/
def pause (s : GeoState) : GeoState := { s with isActive := false }

/-- The `reset` callback (lines 40–51).  Note that it does not touch
`error`. -/
def reset (s : GeoState) : GeoState :=
  { s with
    isActive := false
    distanceM := JSNum.num 0
    distanceRef := JSNum.num 0
    speedMs := none
    avgSpeedMs := none
    lastFix := none
    prev := none
    startedAt := none
    movingTime := JSNum.num 0
    lastTick := none }

/-- One invocation of the animation-frame callback `r` (lines 56–71) at
time `now = performance.now()`; the frame loop only runs while the session
is active, so an inactive tick is a no-op. -/
def tick (s : GeoState) (now : JSNum) : GeoState :=
  if s.isActive then
    let s1 :=
      match s.lastTick with
      | some last =>
          { s with movingTime := s.movingTime.add ((now.sub last).div (JSNum.num 1000)) }
      | none => s
    let s2 := { s1 with lastTick := some now }
    let tsec := s2.movingTime
    if tsec.gt (JSNum.num 2) && s2.distanceRef.ge (JSNum.num 0) then
      { s2 with avgSpeedMs := some (s2.distanceRef.div tsec) }
    else s2
  else s

/-- JavaScript truthiness of a `number | null` value (line 123 tests
`!startedAtRef.current`): null, 0 and NaN are falsy. -/
def jsTruthy : Option JSNum → Bool
  | none => false
  | some (JSNum.num q) => q ≠ 0
  | some JSNum.nan => false
  | some _ => true

/-- Line 123: `if (!startedAtRef.current) startedAtRef.current = now`. -/
def initTimers (s : GeoState) (now : JSNum) : GeoState :=
  if jsTruthy s.startedAt then s else { s with startedAt := some now }

/-- Line 125: `(typeof speed === "number" && speed >= 0) ? speed : null`. -/
def validNativeSpeed : Option JSNum → Option JSNum
  | some v => if v.ge (JSNum.num 0) then some v else none
  | none => none

/-- The smoothing update of line 147: `v + (s - v) * smoothFactor` on a
previous smoothed value `v`, or the raw speed when previously unset. -/
def emaNext (f : JSNum) : Option JSNum → JSNum → JSNum
  | none, sp => sp
  | some v, sp => v.add ((sp.sub v).mul f)

/-- Lines 146–148: `if (s != null && Number.isFinite(s)) setSpeedMs(...)`. -/
def applySmoothing (f : JSNum) (s : GeoState) (sp : Option JSNum) : GeoState :=
  match sp with
  | some v => if v.isFinite then { s with speedMs := some (emaNext f s.speedMs v) } else s
  | none => s

/-- The common tail of `onSuccess` (lines 145–152): speed smoothing followed
by `prevRef.current = { t: now, lat, lon, acc: accuracy ?? 9999 }`. -/
def finishFix (cfg : GeoTrackerOptions) (s : GeoState) (sp : Option JSNum)
    (now lat lon : JSNum) (acc : Option JSNum) : GeoState :=
  let s2 := applySmoothing cfg.smoothFactor s sp
  { s2 with prev := some { t := now, lat := lat, lon := lon, acc := acc.getD (JSNum.num 9999) } }

/-- The `onSuccess` callback (lines 110–153), parametrised by the external
haversine function `hav`. -/
def onSuccess (cfg : GeoTrackerOptions) (hav : LatLon → LatLon → JSNum)
    (s0 : GeoState) (pos : GeolocationPosition) : GeoState :=
  let s1 := { s0 with lastFix := some pos, error := none }
  if s1.isActive then
    let latitude := pos.coords.latitude
    let longitude := pos.coords.longitude
    let now := pos.timestamp
    if ((pos.coords.accuracy).getD JSNum.posInf).gt cfg.minAccuracyM then s1
    else
      let s2 := initTimers s1 now
      let sp := validNativeSpeed pos.coords.speed
      match s2.prev with
      | none => finishFix cfg s2 sp now latitude longitude pos.coords.accuracy
      | some prev =>
          let dt := (now.sub prev.t).div (JSNum.num 1000)
          if (dt.mul (JSNum.num 1000)).lt cfg.minIntervalMs then s2
          else
            let d := hav { lat := prev.lat, lon := prev.lon } { lat := latitude, lon := longitude }
            let sp2 := if sp.isNone && dt.gt (JSNum.num 0) then some (d.div dt) else sp
            let unrealistic := d.gt (JSNum.num 100) && dt.le (JSNum.num 1)
            let s3 :=
              if unrealistic then s2
              else
                let dr := s2.distanceRef.add d
                { s2 with distanceRef := dr, distanceM := dr }
            finishFix cfg s3 sp2 now latitude longitude pos.coords.accuracy
  else s1

/-- The events that drive the session: the three control callbacks, an
animation-frame tick, and a successful sensor delivery. -/
inductive Event where
  | start (now : JSNum)
  | pause
  | reset
  | tick (now : JSNum)
  | fix (pos : GeolocationPosition)
deriving DecidableEq

/-- One event applied to the session state. -/
def step (cfg : GeoTrackerOptions) (hav : LatLon → LatLon → JSNum)
    (s : GeoState) : Event → GeoState
  | Event.start now => start s now
  | Event.pause => pause s
  | Event.reset => reset s
  | Event.tick now => tick s now
  | Event.fix pos => onSuccess cfg hav s pos

/-- A sequence of events applied from a state. -/
def run (cfg : GeoTrackerOptions) (hav : LatLon → LatLon → JSNum)
    (s : GeoState) : List Event → GeoState
  | [] => s
  | e :: es => run cfg hav (step cfg hav s e) es

/-! ## Computation lemmas for `JSNum` -/

namespace JSNum

@[simp] theorem add_num (a b : ℚ) : add (num a) (num b) = num (a + b) := rfl

@[simp] theorem sub_num (a b : ℚ) : sub (num a) (num b) = num (a - b) := by
  simp [sub, add, neg, sub_eq_add_neg]

@[simp] theorem mul_num (a b : ℚ) : mul (num a) (num b) = num (a * b) := rfl

theorem div_num (a : ℚ) {b : ℚ} (hb : b ≠ 0) : div (num a) (num b) = num (a / b) := by
  simp [div, hb]

@[simp] theorem lt_num (a b : ℚ) : lt (num a) (num b) = decide (a < b) := rfl

@[simp] theorem le_num (a b : ℚ) : le (num a) (num b) = decide (a ≤ b) := rfl

@[simp] theorem gt_num (a b : ℚ) : gt (num a) (num b) = decide (b < a) := rfl

@[simp] theorem ge_num (a b : ℚ) : ge (num a) (num b) = decide (b ≤ a) := rfl

@[simp] theorem lt_num_posInf (a : ℚ) : lt (num a) posInf = true := rfl

@[simp] theorem gt_posInf_num (a : ℚ) : gt posInf (num a) = true := rfl

@[simp] theorem isFinite_num (a : ℚ) : isFinite (num a) = true := rfl

@[simp] theorem isFinite_posInf : isFinite posInf = false := rfl

@[simp] theorem isFinite_negInf : isFinite negInf = false := rfl

@[simp] theorem isFinite_nan : isFinite nan = false := rfl

end JSNum

/-! ## Shape lemmas for the state operations -/

theorem initTimers_eq (s : GeoState) (now : JSNum) :
    ∃ st, initTimers s now = { s with startedAt := st } := by
  unfold initTimers
  split
  · exact ⟨s.startedAt, rfl⟩
  · exact ⟨some now, rfl⟩

theorem initTimers_frame (s : GeoState) (now : JSNum) :
    (initTimers s now).isActive = s.isActive ∧
    (initTimers s now).error = s.error ∧
    (initTimers s now).distanceM = s.distanceM ∧
    (initTimers s now).speedMs = s.speedMs ∧
    (initTimers s now).avgSpeedMs = s.avgSpeedMs ∧
    (initTimers s now).lastFix = s.lastFix ∧
    (initTimers s now).prev = s.prev ∧
    (initTimers s now).movingTime = s.movingTime ∧
    (initTimers s now).lastTick = s.lastTick ∧
    (initTimers s now).distanceRef = s.distanceRef := by
  unfold initTimers
  split <;> simp

theorem applySmoothing_frame (f : JSNum) (s : GeoState) (sp : Option JSNum) :
    (applySmoothing f s sp).isActive = s.isActive ∧
    (applySmoothing f s sp).error = s.error ∧
    (applySmoothing f s sp).distanceM = s.distanceM ∧
    (applySmoothing f s sp).avgSpeedMs = s.avgSpeedMs ∧
    (applySmoothing f s sp).lastFix = s.lastFix ∧
    (applySmoothing f s sp).prev = s.prev ∧
    (applySmoothing f s sp).startedAt = s.startedAt ∧
    (applySmoothing f s sp).movingTime = s.movingTime ∧
    (applySmoothing f s sp).lastTick = s.lastTick ∧
    (applySmoothing f s sp).distanceRef = s.distanceRef := by
  cases sp with
  | none => simp [applySmoothing]
  | some v =>
      simp only [applySmoothing]
      split <;> simp

theorem finishFix_frame (cfg : GeoTrackerOptions) (s : GeoState) (sp : Option JSNum)
    (now lat lon : JSNum) (acc : Option JSNum) :
    (finishFix cfg s sp now lat lon acc).isActive = s.isActive ∧
    (finishFix cfg s sp now lat lon acc).error = s.error ∧
    (finishFix cfg s sp now lat lon acc).distanceM = s.distanceM ∧
    (finishFix cfg s sp now lat lon acc).avgSpeedMs = s.avgSpeedMs ∧
    (finishFix cfg s sp now lat lon acc).lastFix = s.lastFix ∧
    (finishFix cfg s sp now lat lon acc).startedAt = s.startedAt ∧
    (finishFix cfg s sp now lat lon acc).movingTime = s.movingTime ∧
    (finishFix cfg s sp now lat lon acc).lastTick = s.lastTick ∧
    (finishFix cfg s sp now lat lon acc).distanceRef = s.distanceRef := by
  unfold finishFix
  simp [applySmoothing_frame]

theorem finishFix_prev (cfg : GeoTrackerOptions) (s : GeoState) (sp : Option JSNum)
    (now lat lon : JSNum) (acc : Option JSNum) :
    (finishFix cfg s sp now lat lon acc).prev =
      some { t := now, lat := lat, lon := lon, acc := acc.getD (JSNum.num 9999) } := by
  unfold finishFix
  simp

theorem finishFix_speedMs (cfg : GeoTrackerOptions) (s : GeoState) (sp : Option JSNum)
    (now lat lon : JSNum) (acc : Option JSNum) :
    (finishFix cfg s sp now lat lon acc).speedMs =
      (applySmoothing cfg.smoothFactor s sp).speedMs := rfl

theorem tick_eq (s : GeoState) (n : JSNum) :
    ∃ mt last av, tick s n = { s with movingTime := mt, lastTick := last, avgSpeedMs := av } := by
  unfold tick
  split
  · cases hl : s.lastTick <;> dsimp only <;> split <;> exact ⟨_, _, _, rfl⟩
  · exact ⟨_, _, _, rfl⟩

theorem onSuccess_lastFix_error (cfg : GeoTrackerOptions) (hav : LatLon → LatLon → JSNum)
    (s0 : GeoState) (pos : GeolocationPosition) :
    (onSuccess cfg hav s0 pos).lastFix = some pos ∧ (onSuccess cfg hav s0 pos).error = none := by
  unfold onSuccess
  dsimp only
  repeat' split
  all_goals constructor <;> simp [finishFix_frame, initTimers_frame]

/-- Claim C9: every successful sensor delivery unconditionally updates
`lastFix` to the delivered position and clears the published error, before
the active check and before any gating — so a delivery while inactive is
not state-free, and a previously reported error is erased by the next
successful delivery whether or not the fix is accepted. -/
theorem onSuccess_always_publishes_lastFix_and_clears_error
    (cfg : GeoTrackerOptions) (hav : LatLon → LatLon → JSNum)
    (s : GeoState) (pos : GeolocationPosition) :
    (onSuccess cfg hav s pos).lastFix = some pos ∧ (onSuccess cfg hav s pos).error = none :=
  onSuccess_lastFix_error cfg hav s pos

/-! ## Reset (claim C3) -/

theorem step_error_none (cfg : GeoTrackerOptions) (hav : LatLon → LatLon → JSNum)
    (s : GeoState) (e : Event) (h : s.error = none) : (step cfg hav s e).error = none := by
  cases e with
  | start now =>
      show (start s now).error = none
      unfold start
      split <;> simpa using h
  | pause => exact h
  | reset => exact h
  | tick now =>
      show (tick s now).error = none
      obtain ⟨mt, last, av, ht⟩ := tick_eq s now
      rw [ht]
      exact h
  | fix pos => exact (onSuccess_lastFix_error cfg hav s pos).2

theorem run_error_none (cfg : GeoTrackerOptions) (hav : LatLon → LatLon → JSNum)
    (evs : List Event) (s : GeoState) (h : s.error = none) :
    (run cfg hav s evs).error = none := by
  induction evs generalizing s with
  | nil => simpa [run] using h
  | cons e es ih => exact ih _ (step_error_none cfg hav s e h)

/-- Claim C3: from any state reachable by a sequence of start/pause/tick/fix
(and reset) events, `reset` restores exactly the freshly constructed state:
`cumulativeDistanceMeters` is 0, `active` is false, and every field of the
session record — published state and internal baseline/clock refs alike —
equals its initial value, so subsequent behaviour is that of a fresh session. -/
theorem reset_restores_initial_state (cfg : GeoTrackerOptions)
    (hav : LatLon → LatLon → JSNum) (evs : List Event) :
    reset (run cfg hav initState evs) = initState := by
  have h := run_error_none cfg hav evs initState rfl
  set s := run cfg hav initState evs
  apply GeoState.ext <;> simp [reset, initState, h]

/-! ## Accuracy gating (claim C4) -/

/-- Claim C4: while active, a fix whose accuracy exceeds the configured
threshold — or whose accuracy is absent, which `accuracy ?? Infinity`
treats as infinite — is dropped before the timers, the interval check and
any segment computation: the only state change is the unconditional
`lastFix`/`error` bookkeeping. -/
theorem accuracy_gate_drops_fix (cfg : GeoTrackerOptions) (hav : LatLon → LatLon → JSNum)
    (s : GeoState) (pos : GeolocationPosition) (m : ℚ)
    (hA : s.isActive = true) (hm : cfg.minAccuracyM = JSNum.num m)
    (hacc : pos.coords.accuracy = none ∨
      ∃ a : ℚ, pos.coords.accuracy = some (JSNum.num a) ∧ m < a) :
    onSuccess cfg hav s pos = { s with lastFix := some pos, error := none } := by
  have hgt : ((pos.coords.accuracy).getD JSNum.posInf).gt cfg.minAccuracyM = true := by
    rcases hacc with h | ⟨a, h, hma⟩
    · rw [h, hm]; simp
    · rw [h, hm]; simp [hma]
  unfold onSuccess
  dsimp only
  rw [hA, hgt]
  simp

/-- Default construction options, used by concrete checks. -/
def cfgDefault : GeoTrackerOptions := {}

/-- A degenerate haversine instance for concrete checks that never reach it. -/
def havZero : LatLon → LatLon → JSNum := fun _ _ => JSNum.num 0

/-- A freshly constructed session that has been started. -/
def activeInit : GeoState := { initState with isActive := true }

/-- Spec §8's accuracy-gating example: a fix with accuracy 61 against the
default threshold 60. -/
def posInaccurate : GeolocationPosition :=
  { coords := { latitude := JSNum.num 1, longitude := JSNum.num 1,
                speed := none, accuracy := some (JSNum.num 61) },
    timestamp := JSNum.num 0 }

theorem accuracy_gate_drops_fix_witness :
    onSuccess cfgDefault havZero activeInit posInaccurate =
      { activeInit with lastFix := some posInaccurate, error := none } :=
  accuracy_gate_drops_fix cfgDefault havZero activeInit posInaccurate 60 rfl rfl
    (Or.inr ⟨61, rfl, by norm_num⟩)

/-! ## Interval gating (claim C2) -/

/-- Claim C2: while active, a fix that passes the accuracy gate but arrives
less than `minIntervalMs` after the timestamp of the last accepted fix is
dropped without updating the baseline `prev` (= lastAcceptedFix), the
cumulative distance or the smoothed speed — so the next fix that passes
gating forms its segment against the same prior accepted fix. -/
theorem interval_gate_preserves_baseline (cfg : GeoTrackerOptions)
    (hav : LatLon → LatLon → JSNum) (s : GeoState) (pos : GeolocationPosition)
    (p : Fix) (m aq miq ptq ntq : ℚ)
    (hA : s.isActive = true)
    (hm : cfg.minAccuracyM = JSNum.num m)
    (hacc : pos.coords.accuracy = some (JSNum.num aq)) (haq : aq ≤ m)
    (hprev : s.prev = some p) (hpt : p.t = JSNum.num ptq)
    (hnt : pos.timestamp = JSNum.num ntq)
    (hmi : cfg.minIntervalMs = JSNum.num miq)
    (hint : (ntq - ptq) / 1000 * 1000 < miq) :
    (onSuccess cfg hav s pos).prev = s.prev ∧
    (onSuccess cfg hav s pos).distanceM = s.distanceM ∧
    (onSuccess cfg hav s pos).distanceRef = s.distanceRef ∧
    (onSuccess cfg hav s pos).speedMs = s.speedMs ∧
    (onSuccess cfg hav s pos).avgSpeedMs = s.avgSpeedMs := by
  have hgt : ((pos.coords.accuracy).getD JSNum.posInf).gt cfg.minAccuracyM = false := by
    rw [hacc, hm]
    simp [not_lt.mpr haq]
  have hdt : (pos.timestamp.sub p.t).div (JSNum.num 1000) = JSNum.num ((ntq - ptq) / 1000) := by
    rw [hnt, hpt, JSNum.sub_num]
    exact JSNum.div_num _ (by norm_num)
  have hint2 : ntq - ptq < miq := by
    have h := hint
    rw [div_mul_cancel₀ _ (by norm_num : (1000:ℚ) ≠ 0)] at h
    exact h
  unfold onSuccess
  dsimp only
  rw [hA, hgt]
  simp [initTimers_frame, hprev, hdt, hmi, hint, hint2]

/-- A session with an accepted baseline fix at time 0 and one meter of
accumulated distance. -/
def baselineState : GeoState :=
  { initState with
    isActive := true
    prev := some { t := JSNum.num 0, lat := JSNum.num 0, lon := JSNum.num 0, acc := JSNum.num 5 }
    distanceM := JSNum.num 1
    distanceRef := JSNum.num 1 }

/-- Spec §8's interval-gating example: a second fix 50 ms after the baseline. -/
def posAt50ms : GeolocationPosition :=
  { coords := { latitude := JSNum.num 0, longitude := JSNum.num 0,
                speed := none, accuracy := some (JSNum.num 5) },
    timestamp := JSNum.num 50 }

/-- The fast profile of spec §8's interval-gating example. -/
def cfgFast : GeoTrackerOptions := { minIntervalMs := JSNum.num 100 }

theorem interval_gate_preserves_baseline_witness :
    (onSuccess cfgFast havZero baselineState posAt50ms).prev = baselineState.prev ∧
    (onSuccess cfgFast havZero baselineState posAt50ms).distanceM = baselineState.distanceM ∧
    (onSuccess cfgFast havZero baselineState posAt50ms).distanceRef = baselineState.distanceRef ∧
    (onSuccess cfgFast havZero baselineState posAt50ms).speedMs = baselineState.speedMs ∧
    (onSuccess cfgFast havZero baselineState posAt50ms).avgSpeedMs = baselineState.avgSpeedMs :=
  interval_gate_preserves_baseline cfgFast havZero baselineState posAt50ms
    { t := JSNum.num 0, lat := JSNum.num 0, lon := JSNum.num 0, acc := JSNum.num 5 }
    60 5 100 0 50 rfl rfl rfl (by norm_num) rfl rfl rfl rfl (by norm_num)

/-! ## Ticks: moving time and average speed (claims C5 and C7) -/

theorem tick_active_some (s : GeoState) (n last : JSNum) (hA : s.isActive = true)
    (hl : s.lastTick = some last) :
    tick s n =
      (let mt := s.movingTime.add ((n.sub last).div (JSNum.num 1000))
       let s2 := { s with movingTime := mt, lastTick := some n }
       if mt.gt (JSNum.num 2) && s2.distanceRef.ge (JSNum.num 0) then
         { s2 with avgSpeedMs := some (s2.distanceRef.div mt) }
       else s2) := by
  unfold tick
  rw [hA, hl]
  rfl

/-- Claim C5: on a tick while active with elapsed time `T`, the average
speed is republished as exactly `distance / T` once `T` exceeds the warm-up
threshold (2 s), and it is then non-negative; at a tick at which `T` has not
exceeded the threshold, `avgSpeedMs` is left untouched (in particular it
stays unset when it was never set). -/
theorem avg_speed_warmup (s : GeoState) (N L M D T : ℚ)
    (hA : s.isActive = true) (hL : s.lastTick = some (JSNum.num L))
    (hM : s.movingTime = JSNum.num M) (hD : s.distanceRef = JSNum.num D)
    (hD0 : 0 ≤ D) (hT : T = M + (N - L) / 1000) :
    (tick s (JSNum.num N)).movingTime = JSNum.num T ∧
    (T ≤ 2 → (tick s (JSNum.num N)).avgSpeedMs = s.avgSpeedMs) ∧
    (2 < T → (tick s (JSNum.num N)).avgSpeedMs = some (JSNum.num (D / T)) ∧ 0 ≤ D / T) := by
  have h1000 : (1000 : ℚ) ≠ 0 := by norm_num
  have hmt : s.movingTime.add (((JSNum.num N).sub (JSNum.num L)).div (JSNum.num 1000)) =
      JSNum.num T := by
    rw [hM, JSNum.sub_num, JSNum.div_num _ h1000, JSNum.add_num, hT]
  rw [tick_active_some s (JSNum.num N) (JSNum.num L) hA hL]
  dsimp only
  rw [hmt, hD]
  refine ⟨by split <;> rfl, ?_, ?_⟩
  · intro hle
    have hgt2 : (JSNum.num T).gt (JSNum.num 2) = false := by
      simp [not_lt.mpr hle]
    rw [hgt2, Bool.false_and]
    rfl
  · intro h2
    have hT0 : (0 : ℚ) < T := lt_trans (by norm_num) h2
    have hgt2 : (JSNum.num T).gt (JSNum.num 2) = true := by simp [h2]
    have hge0 : (JSNum.num D).ge (JSNum.num 0) = true := by simp [hD0]
    rw [hgt2, hge0, Bool.and_self]
    refine ⟨?_, div_nonneg hD0 (le_of_lt hT0)⟩
    rw [if_pos rfl]
    dsimp only
    rw [JSNum.div_num _ (ne_of_gt hT0)]

/-- A started session with 7 meters accumulated and the tick clock at 0. -/
def warmedState : GeoState :=
  { initState with
    isActive := true
    lastTick := some (JSNum.num 0)
    distanceRef := JSNum.num 7
    distanceM := JSNum.num 7 }

theorem avg_speed_warmup_witness :
    (tick warmedState (JSNum.num 3500)).movingTime = JSNum.num (7/2) ∧
    ((7/2 : ℚ) ≤ 2 → (tick warmedState (JSNum.num 3500)).avgSpeedMs = warmedState.avgSpeedMs) ∧
    ((2 : ℚ) < 7/2 →
      (tick warmedState (JSNum.num 3500)).avgSpeedMs = some (JSNum.num (7 / (7/2))) ∧
      (0 : ℚ) ≤ 7 / (7/2)) :=
  avg_speed_warmup warmedState 3500 0 0 7 (7/2) rfl rfl rfl rfl (by norm_num) (by norm_num)

/-- Claim C7: resuming after a pause re-initialises the tick reference to the
reactivation time, so the first post-resume tick adds only the time elapsed
since reactivation to `movingTime` (= activeElapsedSeconds); the wall-clock
pause gap never enters the accumulator, whatever stale `lastTick` the paused
state carries. -/
theorem pause_resume_no_false_elapsed (s : GeoState) (M r n : ℚ)
    (hA : s.isActive = false) (hM : s.movingTime = JSNum.num M) :
    (start s (JSNum.num r)).lastTick = some (JSNum.num r) ∧
    (tick (start s (JSNum.num r)) (JSNum.num n)).movingTime = JSNum.num (M + (n - r) / 1000) := by
  have hs : start s (JSNum.num r) =
      { s with isActive := true, lastTick := some (JSNum.num r) } := by
    unfold start
    rw [hA]
    rfl
  refine ⟨by rw [hs], ?_⟩
  rw [hs, tick_active_some _ (JSNum.num n) (JSNum.num r) rfl rfl]
  dsimp only
  rw [hM, JSNum.sub_num, JSNum.div_num _ (by norm_num : (1000:ℚ) ≠ 0), JSNum.add_num]
  split <;> rfl

/-- A session that ticked one second while active and was then paused; its
stale `lastTick` is 1000 and its accumulated moving time 1 s. -/
def pausedState : GeoState :=
  run cfgDefault havZero initState
    [Event.start (JSNum.num 0), Event.tick (JSNum.num 1000), Event.pause]

theorem pause_resume_no_false_elapsed_witness :
    (start pausedState (JSNum.num 6000)).lastTick = some (JSNum.num 6000) ∧
    (tick (start pausedState (JSNum.num 6000)) (JSNum.num 7000)).movingTime =
      JSNum.num (1 + (7000 - 6000) / 1000) := by
  have hM : pausedState.movingTime = JSNum.num 1 := by
    norm_num [pausedState, run, step, start, tick, pause, initState, cfgDefault,
      JSNum.div_num, apply_ite GeoState.movingTime]
  exact pause_resume_no_false_elapsed pausedState 1 6000 7000 rfl hM

/-! ## Glitch filter (claim C1) -/

/-- Claim C1: a fix that passes the accuracy and interval gates but whose
segment has haversine distance above 100 m with dt at most 1 s is treated as
a GPS glitch: the cumulative distance (both the published value and the ref)
is unchanged, yet the smoothed speed is still updated with the derived
instantaneous speed — the valid native speed when present, else the
`d / dt` fallback — and `prev` (= lastAcceptedFix) still advances to the new
fix's position and timestamp. -/
theorem glitch_filter_discards_distance_only (cfg : GeoTrackerOptions)
    (hav : LatLon → LatLon → JSNum) (s : GeoState) (pos : GeolocationPosition)
    (p : Fix) (m aq miq ptq ntq dq : ℚ)
    (hA : s.isActive = true)
    (hm : cfg.minAccuracyM = JSNum.num m)
    (hacc : pos.coords.accuracy = some (JSNum.num aq)) (haq : aq ≤ m)
    (hprev : s.prev = some p) (hpt : p.t = JSNum.num ptq)
    (hnt : pos.timestamp = JSNum.num ntq)
    (hmi : cfg.minIntervalMs = JSNum.num miq)
    (hint : ¬ ((ntq - ptq) / 1000 * 1000 < miq))
    (hd : hav { lat := p.lat, lon := p.lon }
            { lat := pos.coords.latitude, lon := pos.coords.longitude } = JSNum.num dq)
    (hd100 : 100 < dq)
    (hdtpos : 0 < (ntq - ptq) / 1000)
    (hdt1 : (ntq - ptq) / 1000 ≤ 1) :
    (onSuccess cfg hav s pos).distanceM = s.distanceM ∧
    (onSuccess cfg hav s pos).distanceRef = s.distanceRef ∧
    (onSuccess cfg hav s pos).prev =
      some { t := pos.timestamp, lat := pos.coords.latitude,
             lon := pos.coords.longitude, acc := JSNum.num aq } ∧
    (pos.coords.speed = none →
      (onSuccess cfg hav s pos).speedMs =
        some (emaNext cfg.smoothFactor s.speedMs
          (JSNum.num (dq / ((ntq - ptq) / 1000))))) ∧
    (∀ vq : ℚ, 0 ≤ vq → pos.coords.speed = some (JSNum.num vq) →
      (onSuccess cfg hav s pos).speedMs =
        some (emaNext cfg.smoothFactor s.speedMs (JSNum.num vq))) := by
  have h1000 : (1000 : ℚ) ≠ 0 := by norm_num
  have hgt : ((pos.coords.accuracy).getD JSNum.posInf).gt cfg.minAccuracyM = false := by
    rw [hacc, hm]
    simp [not_lt.mpr haq]
  have hdt : (pos.timestamp.sub p.t).div (JSNum.num 1000) = JSNum.num ((ntq - ptq) / 1000) := by
    rw [hnt, hpt, JSNum.sub_num]
    exact JSNum.div_num _ h1000
  have hint2 : ¬ (ntq - ptq < miq) := by
    rwa [div_mul_cancel₀ _ h1000] at hint
  have hDT0 : (ntq - ptq) / 1000 ≠ 0 := ne_of_gt hdtpos
  refine ⟨?_, ?_, ?_, ?_, ?_⟩
  · unfold onSuccess
    dsimp only
    rw [hA, hgt]
    simp [initTimers_frame, hprev, hdt, hmi, hint, hint2, hd, hd100, hdt1,
      finishFix_frame]
  · unfold onSuccess
    dsimp only
    rw [hA, hgt]
    simp [initTimers_frame, hprev, hdt, hmi, hint, hint2, hd, hd100, hdt1,
      finishFix_frame]
  · unfold onSuccess
    dsimp only
    rw [hA, hgt]
    simp [initTimers_frame, hprev, hdt, hmi, hint, hint2, hd, hd100, hdt1,
      finishFix_prev, hacc]
  · intro hsp
    unfold onSuccess
    dsimp only
    rw [hA, hgt]
    simp [initTimers_frame, hprev, hdt, hmi, hint, hint2, hd, hd100, hdt1,
      finishFix_speedMs, applySmoothing, validNativeSpeed, hsp, hdtpos, hDT0,
      JSNum.div_num]
  · intro vq hvq hsp
    unfold onSuccess
    dsimp only
    rw [hA, hgt]
    simp [initTimers_frame, hprev, hdt, hmi, hint, hint2, hd, hd100, hdt1,
      finishFix_speedMs, applySmoothing, validNativeSpeed, hsp, hvq]

/-- Spec §8's glitch example haversine: every segment measures 200 m. -/
def hav200 : LatLon → LatLon → JSNum := fun _ _ => JSNum.num 200

/-- A fix 500 ms after the baseline and 200 m away (under `hav200`). -/
def posGlitch : GeolocationPosition :=
  { coords := { latitude := JSNum.num 1, longitude := JSNum.num 1,
                speed := none, accuracy := some (JSNum.num 10) },
    timestamp := JSNum.num 500 }

theorem glitch_filter_discards_distance_only_witness :
    (onSuccess cfgDefault hav200 baselineState posGlitch).distanceM = baselineState.distanceM ∧
    (onSuccess cfgDefault hav200 baselineState posGlitch).distanceRef = baselineState.distanceRef ∧
    (onSuccess cfgDefault hav200 baselineState posGlitch).prev =
      some { t := posGlitch.timestamp, lat := posGlitch.coords.latitude,
             lon := posGlitch.coords.longitude, acc := JSNum.num 10 } ∧
    (posGlitch.coords.speed = none →
      (onSuccess cfgDefault hav200 baselineState posGlitch).speedMs =
        some (emaNext cfgDefault.smoothFactor baselineState.speedMs
          (JSNum.num (200 / ((500 - 0) / 1000))))) ∧
    (∀ vq : ℚ, 0 ≤ vq → posGlitch.coords.speed = some (JSNum.num vq) →
      (onSuccess cfgDefault hav200 baselineState posGlitch).speedMs =
        some (emaNext cfgDefault.smoothFactor baselineState.speedMs (JSNum.num vq))) :=
  glitch_filter_discards_distance_only cfgDefault hav200 baselineState posGlitch
    { t := JSNum.num 0, lat := JSNum.num 0, lon := JSNum.num 0, acc := JSNum.num 5 }
    60 10 500 0 500 200 rfl rfl rfl (by norm_num) rfl rfl rfl rfl
    (by norm_num) rfl (by norm_num) (by norm_num) (by norm_num)

/-! ## EMA smoothing (claim C6) -/

/-- Claim C6: the speed-smoothing update of line 147.  When previously unset
the smoothed speed is set directly to the incoming speed; otherwise the
update computes `prev + (v - prev) * smoothFactor`, whose error to a
constant input `v` scales by the factor `1 - f` — strictly decreasing while
the smoothed value differs from `v`, hence monotone convergence toward `v` —
and for `smoothFactor = 1` a single update lands exactly on `v`. -/
theorem ema_convergence (f o v : ℚ) (hf0 : 0 < f) (hf1 : f ≤ 1) :
    emaNext (JSNum.num f) none (JSNum.num v) = JSNum.num v ∧
    emaNext (JSNum.num f) (some (JSNum.num o)) (JSNum.num v) =
      JSNum.num (o + (v - o) * f) ∧
    (o + (v - o) * f) - v = (1 - f) * (o - v) ∧
    |o + (v - o) * f - v| = (1 - f) * |o - v| ∧
    (o ≠ v → |o + (v - o) * f - v| < |o - v|) ∧
    (f = 1 → emaNext (JSNum.num f) (some (JSNum.num o)) (JSNum.num v) = JSNum.num v) := by
  have e2 : emaNext (JSNum.num f) (some (JSNum.num o)) (JSNum.num v) =
      JSNum.num (o + (v - o) * f) := by
    simp [emaNext]
  have e3 : (o + (v - o) * f) - v = (1 - f) * (o - v) := by ring
  have e4 : |o + (v - o) * f - v| = (1 - f) * |o - v| := by
    rw [e3, abs_mul, abs_of_nonneg (by linarith : (0:ℚ) ≤ 1 - f)]
  refine ⟨rfl, e2, e3, e4, ?_, ?_⟩
  · intro ho
    have hpos : 0 < |o - v| := abs_pos.mpr (sub_ne_zero.mpr ho)
    rw [e4]
    nlinarith
  · intro hf
    subst hf
    rw [e2]
    congr 1
    ring

theorem ema_convergence_witness :
    emaNext (JSNum.num (1/2)) none (JSNum.num 10) = JSNum.num 10 ∧
    emaNext (JSNum.num (1/2)) (some (JSNum.num 0)) (JSNum.num 10) =
      JSNum.num (0 + (10 - 0) * (1/2)) ∧
    ((0:ℚ) + (10 - 0) * (1/2)) - 10 = (1 - 1/2) * (0 - 10) ∧
    |(0:ℚ) + (10 - 0) * (1/2) - 10| = (1 - 1/2) * |(0:ℚ) - 10| ∧
    ((0:ℚ) ≠ 10 → |(0:ℚ) + (10 - 0) * (1/2) - 10| < |(0:ℚ) - 10|) ∧
    ((1/2 : ℚ) = 1 →
      emaNext (JSNum.num (1/2)) (some (JSNum.num 0)) (JSNum.num 10) = JSNum.num 10) :=
  ema_convergence (1/2) 0 10 (by norm_num) (by norm_num)

/-! ## Distance monotonicity (claim C8) -/

/-- The property the real `haversine-distance` library guarantees: a
non-negative finite distance for every pair of coordinates. -/
def HavNonneg (hav : LatLon → LatLon → JSNum) : Prop :=
  ∀ a b, ∃ q : ℚ, 0 ≤ q ∧ hav a b = JSNum.num q

theorem onSuccess_distance_mono (cfg : GeoTrackerOptions) (hav : LatLon → LatLon → JSNum)
    (s : GeoState) (pos : GeolocationPosition) (D : ℚ)
    (hhav : HavNonneg hav) (hM : s.distanceM = JSNum.num D)
    (hR : s.distanceRef = JSNum.num D) :
    ∃ Dq, D ≤ Dq ∧ (onSuccess cfg hav s pos).distanceM = JSNum.num Dq ∧
      (onSuccess cfg hav s pos).distanceRef = JSNum.num Dq := by
  unfold onSuccess
  dsimp only
  split
  · split
    · exact ⟨D, le_refl D, hM, hR⟩
    · split
      · refine ⟨D, le_refl D, ?_, ?_⟩ <;>
          simp [finishFix_frame, initTimers_frame, hM, hR]
      · split
        · refine ⟨D, le_refl D, ?_, ?_⟩ <;> simp [initTimers_frame, hM, hR]
        · split
          · refine ⟨D, le_refl D, ?_, ?_⟩ <;>
              simp [finishFix_frame, initTimers_frame, hM, hR]
          · rename_i pr heq hint hreal
            obtain ⟨q, hq0, hq⟩ := hhav { lat := pr.lat, lon := pr.lon }
              { lat := pos.coords.latitude, lon := pos.coords.longitude }
            refine ⟨D + q, by linarith, ?_, ?_⟩ <;>
              simp [finishFix_frame, initTimers_frame, hq, hM, hR]
  · exact ⟨D, le_refl D, hM, hR⟩

/-- Claim C8: across any single event other than `reset`, the cumulative
distance never decreases — an accepted fix adds a non-negative haversine
segment (or nothing, for a glitch segment), while rejected fixes, ticks,
start and pause contribute exactly zero — and the published `distanceM`
stays in sync with the `distanceRef` accumulator. -/
theorem distance_monotone_per_event (cfg : GeoTrackerOptions)
    (hav : LatLon → LatLon → JSNum) (s : GeoState) (e : Event) (D : ℚ)
    (hhav : HavNonneg hav) (hM : s.distanceM = JSNum.num D)
    (hR : s.distanceRef = JSNum.num D) (hne : e ≠ Event.reset) :
    ∃ Dq, D ≤ Dq ∧ (step cfg hav s e).distanceM = JSNum.num Dq ∧
      (step cfg hav s e).distanceRef = JSNum.num Dq ∧
      ((e = Event.pause ∨ (∃ n, e = Event.start n) ∨ (∃ n, e = Event.tick n)) → Dq = D) := by
  cases e with
  | start now =>
      refine ⟨D, le_refl D, ?_, ?_, fun _ => rfl⟩
      · show (start s now).distanceM = JSNum.num D
        unfold start
        split <;> simpa using hM
      · show (start s now).distanceRef = JSNum.num D
        unfold start
        split <;> simpa using hR
  | pause => exact ⟨D, le_refl D, hM, hR, fun _ => rfl⟩
  | reset => exact absurd rfl hne
  | tick now =>
      obtain ⟨mt, lt2, av, ht⟩ := tick_eq s now
      refine ⟨D, le_refl D, ?_, ?_, fun _ => rfl⟩
      · show (tick s now).distanceM = JSNum.num D
        rw [ht]
        exact hM
      · show (tick s now).distanceRef = JSNum.num D
        rw [ht]
        exact hR
  | fix pos =>
      obtain ⟨Dq, hle, h1, h2⟩ := onSuccess_distance_mono cfg hav s pos D hhav hM hR
      refine ⟨Dq, hle, h1, h2, fun hc => ?_⟩
      rcases hc with h | ⟨n, h⟩ | ⟨n, h⟩ <;> exact Event.noConfusion h

theorem distance_monotone_per_event_witness :
    ∃ Dq, (1:ℚ) ≤ Dq ∧
      (step cfgDefault hav200 baselineState (Event.fix posGlitch)).distanceM = JSNum.num Dq ∧
      (step cfgDefault hav200 baselineState (Event.fix posGlitch)).distanceRef = JSNum.num Dq ∧
      ((Event.fix posGlitch = Event.pause ∨
        (∃ n, Event.fix posGlitch = Event.start n) ∨
        (∃ n, Event.fix posGlitch = Event.tick n)) → Dq = 1) :=
  distance_monotone_per_event cfgDefault hav200 baselineState (Event.fix posGlitch) 1
    (fun a b => ⟨200, by norm_num, rfl⟩) rfl rfl (fun h => Event.noConfusion h)

/-! ## Smoothed speed stays finite (claim C10) -/

theorem JSNum.isFinite_iff (x : JSNum) : x.isFinite = true ↔ ∃ q : ℚ, x = JSNum.num q := by
  cases x <;> simp [JSNum.isFinite]

/-- The smoothed speed, when set, is a finite number. -/
def SpeedFinite (s : GeoState) : Prop :=
  ∀ v, s.speedMs = some v → v.isFinite = true

theorem applySmoothing_speedFinite (fq : ℚ) (s : GeoState) (sp : Option JSNum)
    (hs : SpeedFinite s) :
    SpeedFinite (applySmoothing (JSNum.num fq) s sp) := by
  intro v hv
  cases sp with
  | none => exact hs v hv
  | some w =>
      dsimp only [applySmoothing] at hv
      by_cases hw : w.isFinite = true
      · rw [if_pos hw] at hv
        have hv2 : emaNext (JSNum.num fq) s.speedMs w = v := by simpa using hv
        cases hsm : s.speedMs with
        | none =>
            rw [← hv2, hsm]
            simpa [emaNext] using hw
        | some u =>
            obtain ⟨uq, hu⟩ := (JSNum.isFinite_iff u).mp (hs u hsm)
            obtain ⟨wq, hwq⟩ := (JSNum.isFinite_iff w).mp hw
            rw [← hv2, hsm, hu, hwq]
            simp [emaNext]
      · rw [if_neg hw] at hv
        exact hs v hv

theorem finishFix_speedFinite (cfg : GeoTrackerOptions) (fq : ℚ)
    (hf : cfg.smoothFactor = JSNum.num fq) (s : GeoState) (sp : Option JSNum)
    (now lat lon : JSNum) (acc : Option JSNum) (hs : SpeedFinite s) :
    SpeedFinite (finishFix cfg s sp now lat lon acc) := by
  intro v hv
  rw [finishFix_speedMs, hf] at hv
  exact applySmoothing_speedFinite fq s sp hs v hv

theorem onSuccess_speedFinite (cfg : GeoTrackerOptions) (hav : LatLon → LatLon → JSNum)
    (fq : ℚ) (hf : cfg.smoothFactor = JSNum.num fq)
    (s : GeoState) (pos : GeolocationPosition) (hs : SpeedFinite s) :
    SpeedFinite (onSuccess cfg hav s pos) := by
  have hs1 : SpeedFinite { s with lastFix := some pos, error := none } :=
    fun v hv => hs v hv
  have hs2 : SpeedFinite
      (initTimers { s with lastFix := some pos, error := none } pos.timestamp) := by
    intro v hv
    rw [(initTimers_frame { s with lastFix := some pos, error := none }
      pos.timestamp).2.2.2.1] at hv
    exact hs1 v hv
  unfold onSuccess
  dsimp only
  split
  · split
    · exact hs1
    · split
      · exact finishFix_speedFinite cfg fq hf _ _ _ _ _ _ hs2
      · split
        · exact hs2
        · apply finishFix_speedFinite cfg fq hf
          split
          · exact hs2
          · intro v hv
            exact hs2 v hv
  · exact hs1

theorem step_speedFinite (cfg : GeoTrackerOptions) (hav : LatLon → LatLon → JSNum)
    (fq : ℚ) (hf : cfg.smoothFactor = JSNum.num fq)
    (s : GeoState) (e : Event) (hs : SpeedFinite s) :
    SpeedFinite (step cfg hav s e) := by
  cases e with
  | start now =>
      have h : (start s now).speedMs = s.speedMs := by
        unfold start
        split <;> rfl
      intro v hv
      rw [show (step cfg hav s (Event.start now)).speedMs = (start s now).speedMs from rfl,
        h] at hv
      exact hs v hv
  | pause => exact fun v hv => hs v hv
  | reset =>
      intro v hv
      simp [step, reset] at hv
  | tick now =>
      obtain ⟨mt, lt2, av, ht⟩ := tick_eq s now
      intro v hv
      rw [show (step cfg hav s (Event.tick now)).speedMs = (tick s now).speedMs from rfl,
        ht] at hv
      exact hs v hv
  | fix pos => exact onSuccess_speedFinite cfg hav fq hf s pos hs

theorem run_speedFinite (cfg : GeoTrackerOptions) (hav : LatLon → LatLon → JSNum)
    (fq : ℚ) (hf : cfg.smoothFactor = JSNum.num fq)
    (evs : List Event) (s : GeoState) (hs : SpeedFinite s) :
    SpeedFinite (run cfg hav s evs) := by
  induction evs generalizing s with
  | nil => exact hs
  | cons e es ih => exact ih _ (step_speedFinite cfg hav fq hf s e hs)

/-- Claim C10: from a fresh session, for every event sequence — fixes may
carry absent, negative or non-finite native speeds and the haversine values
are unconstrained — and every configuration whose smoothing factor is a
finite number, the smoothed speed is a finite (non-NaN) number whenever it
is set: the `d / dt` fallback is computed only under the explicit `dt > 0`
check (so even `minIntervalMs = 0`, which lets a `dt = 0` fix through the
interval gate, produces no division-by-zero value) and the
`Number.isFinite` guard discards every non-finite candidate before the
smoothing update. -/
theorem speedMs_always_finite (cfg : GeoTrackerOptions) (hav : LatLon → LatLon → JSNum)
    (fq : ℚ) (hf : cfg.smoothFactor = JSNum.num fq) (evs : List Event) (v : JSNum)
    (hv : (run cfg hav initState evs).speedMs = some v) :
    v.isFinite = true := by
  have h : SpeedFinite (run cfg hav initState evs) :=
    run_speedFinite cfg hav fq hf evs initState
      (fun w hw => by simp [initState] at hw)
  exact h v hv

/-- A fix carrying a valid native speed of 5 m/s. -/
def posSpeed5 : GeolocationPosition :=
  { coords := { latitude := JSNum.num 1, longitude := JSNum.num 1,
                speed := some (JSNum.num 5), accuracy := some (JSNum.num 10) },
    timestamp := JSNum.num 0 }

theorem speedMs_always_finite_witness : (JSNum.num 5).isFinite = true :=
  speedMs_always_finite cfgDefault havZero (1/4) rfl
    [Event.start (JSNum.num 0), Event.fix posSpeed5] (JSNum.num 5)
    (by norm_num [run, step, start, onSuccess, initState, cfgDefault, posSpeed5,
      initTimers, jsTruthy, validNativeSpeed, finishFix, applySmoothing, emaNext])

end Aerotone
